import Mathlib

/-!
Verification of the Cloud-drive web client (end-user dashboard script and
admin console script) against its natural-language specification.

The JavaScript source is shallowly embedded: each relevant function is
translated into a pure Lean function over explicit state, with network
responses and browser-scheduler choices passed in as explicit parameters.
DOM rendering and styling are outside the model; the modelled observables
are the module-level state variables (token, files, selectedFileIds,
pollingTimer), the outgoing requests, the scheduled timers, the chat
transcript, and the toast notifications.
-/

namespace CloudDrive

/-- Embedding of a FileRecord as returned by GET /api/files and stored in
the module-level variable files. Only the fields the client logic reads
are kept (rendering-only fields such as upload_date are omitted). -/
structure FileRecord where
  id : Nat
  filename : String
  size : Nat
  is_indexed : Bool
deriving DecidableEq, Repr

/-- Visible top-level view of the end-user client: the auth form
(authContainer shown) or the dashboard (dashboardContainer shown). -/
inductive View where
  | auth
  | dashboard
deriving DecidableEq, Repr

/-- Module-level mutable state of the end-user script: token (and its
durable localStorage copy), files, selectedFileIds, and whether a polling
timer is currently pending (pollingTimer holding a live timer). -/
structure ClientState where
  token : Option String
  storedToken : Option String
  files : List FileRecord
  selectedFileIds : List Nat
  pollingPending : Bool
  view : View
deriving DecidableEq, Repr

/-- Embedding of logout(): sets token to null, removes the durable copy,
empties files, and shows the auth view. It touches nothing else. -/
def logout (s : ClientState) : ClientState :=
  { s with token := none, storedToken := none, files := [], view := View.auth }

/-- Authorization header built at call time by fetchFiles and the other
authorized calls via the template literal Bearer followed by the token
variable; with a null token JavaScript interpolates the string null. -/
def authHeader (s : ClientState) : String :=
  "Bearer " ++ (match s.token with
    | some t => t
    | none => "null")

/-- Outcome of the awaited GET /api/files inside fetchFiles: a parsed
record list on a 2xx response, the HTTP status on a non-ok response
(which makes fetchFiles throw Failed to fetch files), or a transport
error carrying the error message. -/
inductive FetchResult where
  | success (files : List FileRecord)
  | httpError (status : Nat)
  | networkError (message : String)
deriving DecidableEq, Repr

/-- Observable effects of one complete fetchFiles() execution: the state
after the call, the setTimeout delay when a follow-up poll was scheduled
(none when no setTimeout was issued), and the toast shown on failure. -/
structure FetchFilesOutcome where
  state : ClientState
  scheduledPollDelay : Option Nat
  toast : Option String
deriving DecidableEq, Repr

/-- Embedding of fetchFiles() as a single completed execution. It first
cancels any pending polling timer (clearTimeout at entry), then on
success replaces files wholesale and schedules one follow-up poll at
3000 ms exactly when some record has is_indexed false; on any failure it
shows one toast built from the error message and schedules nothing. The
catch block never touches token, storedToken, selectedFileIds or the
view, whatever the HTTP status was. -/
def fetchFilesRun (s : ClientState) (r : FetchResult) : FetchFilesOutcome :=
  let cleared : ClientState := { s with pollingPending := false }
  match r with
  | FetchResult.success fs =>
      let hasProcessing := fs.any (fun f => !f.is_indexed)
      { state := { cleared with files := fs, pollingPending := hasProcessing }
        scheduledPollDelay := if hasProcessing then some 3000 else none
        toast := none }
  | FetchResult.httpError _ =>
      { state := cleared
        scheduledPollDelay := none
        toast := some "Failed to load files: Failed to fetch files" }
  | FetchResult.networkError message =>
      { state := cleared
        scheduledPollDelay := none
        toast := some ("Failed to load files: " ++ message) }

/-- Concrete logged-in client state used to evaluate the embedding at
explicit inputs. -/
def exClientState : ClientState :=
  { token := some "tok", storedToken := some "tok", files := []
    selectedFileIds := [], pollingPending := false, view := View.dashboard }

/-- Timer-accounting model of the polling discipline of fetchFiles().
outstanding is the list of timer ids that are scheduled, not yet fired
and not yet cancelled; pollingTimer is the module variable (it can hold
a stale id whose timer already fired or was cancelled, since the source
never nulls it); nextId supplies fresh timer ids. -/
structure PollState where
  outstanding : List Nat
  pollingTimer : Option Nat
  nextId : Nat
deriving DecidableEq, Repr

/-- Page-load state: no timers, pollingTimer null. -/
def initialPollState : PollState :=
  { outstanding := [], pollingTimer := none, nextId := 0 }

/-- Embedding of the statement if (pollingTimer) clearTimeout(pollingTimer)
at the top of fetchFiles: the timer the variable points at is cancelled
(removed from outstanding; a no-op when it already fired or was already
cancelled). The variable itself is left as is, as in the source. -/
def clearPollingTimer (s : PollState) : PollState :=
  match s.pollingTimer with
  | none => s
  | some t => { s with outstanding := s.outstanding.erase t }

/-- Synchronous prefix of fetchFiles() up to its first await: only the
clearTimeout guard runs before the fetch suspends. -/
def fetchFilesEnter (s : PollState) : PollState :=
  clearPollingTimer s

/-- Resumption of fetchFiles() after its awaits: when the fetched
collection still has an unindexed record (hasProcessing), a fresh timer
is created by setTimeout and assigned to pollingTimer; on an all-indexed
collection or on a failed fetch nothing is scheduled and the variable is
untouched. -/
def fetchFilesComplete (hasProcessing : Bool) (s : PollState) : PollState :=
  if hasProcessing then
    { outstanding := s.outstanding ++ [s.nextId]
      pollingTimer := some s.nextId
      nextId := s.nextId + 1 }
  else s

/-- One fetchFiles() execution that runs to completion with no other
fetchFiles() interleaved between its entry and its resumption. -/
def fetchFilesCall (hasProcessing : Bool) (s : PollState) : PollState :=
  fetchFilesComplete hasProcessing (fetchFilesEnter s)

/-- Firing of a scheduled polling timer: the runtime removes the fired
timer from the outstanding set and runs the scheduled fetchFiles()
callback to completion. -/
def timerFire (hasProcessing : Bool) (s : PollState) : PollState :=
  match s.outstanding with
  | [] => s
  | t :: _ => fetchFilesCall hasProcessing { s with outstanding := s.outstanding.erase t }

/-- Events of a sequential (non-overlapping) execution history: a
user-initiated or upload-triggered fetchFiles() call, or the firing of
the pending polling timer. The Boolean records whether the fetched
collection still had an unindexed record (false also covers a failed
fetch, which schedules nothing). -/
inductive PollEvent where
  | call (hasProcessing : Bool)
  | fire (hasProcessing : Bool)
deriving DecidableEq, Repr

/-- Step function of the sequential execution history. -/
def pollStep (s : PollState) (e : PollEvent) : PollState :=
  match e with
  | PollEvent.call h => fetchFilesCall h s
  | PollEvent.fire h => timerFire h s

/-- State reached from page load after a sequence of non-overlapping
fetchFiles() executions and timer firings. -/
def runPoll (events : List PollEvent) : PollState :=
  events.foldl pollStep initialPollState

/-- Single-flight invariant of the polling discipline: either no timer is
outstanding, or exactly one is and the pollingTimer variable points at
it. -/
def PollInv (s : PollState) : Prop :=
  s.outstanding = [] ∨ ∃ t, s.outstanding = [t] ∧ s.pollingTimer = some t

/-- Embedding of toggleFileSelection(fileId): indexOf followed by either
splice (remove the first occurrence) or push (append at the end). -/
def toggleFileSelection (fileId : Nat) (selectedFileIds : List Nat) : List Nat :=
  if fileId ∈ selectedFileIds then selectedFileIds.erase fileId
  else selectedFileIds ++ [fileId]

/-- Body of the POST /api/query request as assembled in handleChat:
query always present, file_ids present exactly when the selection is
non-empty. -/
structure QueryRequest where
  query : String
  file_ids : Option (List Nat)
deriving DecidableEq, Repr

/-- Embedding of the request-building fragment of handleChat: the object
starts as the query alone and file_ids is added only under
selectedFileIds.length greater than zero. -/
def buildQueryRequest (query : String) (selectedFileIds : List Nat) : QueryRequest :=
  if selectedFileIds.length > 0 then { query := query, file_ids := some selectedFileIds }
  else { query := query, file_ids := none }

/-- Embedding of the JavaScript String.prototype.trim call used on the
chat input: leading and trailing whitespace removed. -/
def jsTrim (s : String) : String :=
  String.mk (((s.toList.dropWhile Char.isWhitespace).reverse.dropWhile Char.isWhitespace).reverse)

/-- Message roles used by addChatMessage. -/
inductive Role where
  | user
  | assistant
deriving DecidableEq, Repr

/-- One entry of the chat transcript (the children of chatMessages):
role, text content, the error styling flag of addChatMessage, and
whether the entry is the transient typing indicator. -/
structure ChatMessage where
  role : Role
  content : String
  isError : Bool
  isTyping : Bool
deriving DecidableEq, Repr

/-- Transcript entry appended by addChatMessage(query, user). -/
def mkUserMessage (content : String) : ChatMessage :=
  { role := Role.user, content := content, isError := false, isTyping := false }

/-- Transcript entry appended by addChatMessage(data.answer, assistant). -/
def mkAssistantMessage (content : String) : ChatMessage :=
  { role := Role.assistant, content := content, isError := false, isTyping := false }

/-- Fixed generic error text of the handleChat catch block. -/
def chatGenericError : String := "Sorry, I encountered an error. Please try again."

/-- Transcript entry appended by the handleChat catch block: the fixed
generic text with assistant role and error styling. -/
def chatErrorMessage : ChatMessage :=
  { role := Role.assistant, content := chatGenericError, isError := true, isTyping := false }

/-- Transient entry appended by addTypingIndicator. -/
def typingPlaceholder : ChatMessage :=
  { role := Role.assistant, content := "", isError := false, isTyping := true }

/-- Embedding of removeTypingIndicator(id): removes the typing entry if
it is still present, a no-op otherwise (the transcript holds at most one
typing entry, inserted by the same handleChat invocation). -/
def removeTypingIndicator (transcript : List ChatMessage) : List ChatMessage :=
  transcript.eraseP (fun m => m.isTyping)

/-- Outcome of the awaited POST /api/query inside handleChat: a parsed
answer on a 2xx response, a non-2xx response carrying the backend detail
text, or a transport error carrying its message. -/
inductive QueryOutcome where
  | success (answer : String)
  | httpError (detail : String)
  | networkError (message : String)
deriving DecidableEq, Repr

/-- Embedding of handleChat as a transcript transformer: trim the input
and no-op when empty; otherwise append the user message and the typing
indicator, then on success remove the indicator and append the assistant
answer, and on failure remove the indicator (twice on a non-2xx response,
once in the try block and once in the catch block, the second removal a
no-op) and append the fixed generic error message. The backend detail
text is only logged, never appended. -/
def handleChat (input : String) (outcome : QueryOutcome) (transcript : List ChatMessage) :
    List ChatMessage :=
  let query := jsTrim input
  if query = "" then transcript
  else
    let withQuery := transcript ++ [mkUserMessage query, typingPlaceholder]
    match outcome with
    | QueryOutcome.success answer =>
        removeTypingIndicator withQuery ++ [mkAssistantMessage answer]
    | QueryOutcome.httpError _ =>
        removeTypingIndicator (removeTypingIndicator withQuery) ++ [chatErrorMessage]
    | QueryOutcome.networkError _ =>
        removeTypingIndicator withQuery ++ [chatErrorMessage]

/-- Error classification of fetchWithAuth in the admin loadAllData: a
2xx response parses, a 401 or 403 throws UNAUTHORIZED, any other non-ok
status throws an HTTP-status error. -/
inductive LoadError where
  | unauthorized
  | http (status : Nat)
deriving DecidableEq, Repr

/-- Result of one fetchWithAuth call as a function of its HTTP status. -/
def fetchWithAuthError (status : Nat) : Option LoadError :=
  if 200 ≤ status ∧ status < 300 then none
  else if status = 401 ∨ status = 403 then some LoadError.unauthorized
  else some (LoadError.http status)

/-- Rejection reason delivered by Promise.all over the four admin
fetches: the error of the first fetch, in temporal settlement order, that
failed (none when all four succeeded). statuses is indexed positionally
(0 users, 1 files, 2 chats, 3 audit logs); settleOrder is the temporal
order in which the four responses settled. -/
def promiseAllError (statuses : Fin 4 → Nat) (settleOrder : List (Fin 4)) : Option LoadError :=
  (settleOrder.filterMap (fun i => fetchWithAuthError (statuses i))).head?

/-- Embedded AdminUser record (fields read by the join and action logic). -/
structure AdminUser where
  id : Nat
  email : String
deriving DecidableEq, Repr

/-- Embedded AdminFile record (fields read by the join logic). -/
structure AdminFile where
  filename : String
  owner_email : String
  size : Nat
deriving DecidableEq, Repr

/-- Embedded AdminChat record (fields read by the join logic). -/
structure AdminChat where
  user_email : String
  query : String
deriving DecidableEq, Repr

/-- Observable effects of one loadAllData() execution: whether the KPI
and table rendering ran, which collections were assigned and rendered
(none when discarded), whether the admin credential was cleared, whether
the login view was shown and after which delay, and the toast. -/
structure LoadAllOutcome where
  rendered : Bool
  usersShown : Option (List AdminUser)
  filesShown : Option (List AdminFile)
  chatsShown : Option (List AdminChat)
  logsShown : Option (List String)
  tokenCleared : Bool
  returnedToLogin : Bool
  loginDelayMs : Nat
  toast : Option String
deriving DecidableEq, Repr

/-- Embedding of the admin loadAllData(): four concurrent authorized
fetches awaited through Promise.all. When all succeed, the collections
are assigned and every KPI and table is rendered. When any fails, the
catch block receives the first-settled rejection: UNAUTHORIZED clears the
admin token and returns to the login view after 1500 ms, any other error
shows a single aggregate toast; in either failing case nothing is
assigned or rendered. -/
def loadAllData (statuses : Fin 4 → Nat) (settleOrder : List (Fin 4))
    (users : List AdminUser) (files : List AdminFile) (chats : List AdminChat)
    (logs : List String) : LoadAllOutcome :=
  match promiseAllError statuses settleOrder with
  | none =>
      { rendered := true
        usersShown := some users, filesShown := some files
        chatsShown := some chats, logsShown := some logs
        tokenCleared := false, returnedToLogin := false, loginDelayMs := 0
        toast := none }
  | some LoadError.unauthorized =>
      { rendered := false
        usersShown := none, filesShown := none, chatsShown := none, logsShown := none
        tokenCleared := true, returnedToLogin := true, loginDelayMs := 1500
        toast := some "Session expired. Please login again." }
  | some (LoadError.http st) =>
      { rendered := false
        usersShown := none, filesShown := none, chatsShown := none, logsShown := none
        tokenCleared := false, returnedToLogin := false, loginDelayMs := 0
        toast := some ("Failed to load data: HTTP " ++ toString st) }

/-- Concrete status assignment with the users fetch failing 500 and the
files fetch failing 401. -/
def exStatuses : Fin 4 → Nat :=
  fun i => if i.val = 0 then 500 else if i.val = 1 then 401 else 200

/-- Concrete settlement order in which the 500 rejection settles first. -/
def exSettleOrder : List (Fin 4) := [0, 1, 2, 3]

/-- Observable effects of one admin mutating action: whether a confirm
dialog was requested, and whether (and which) mutation request went out.
When no request is sent the action returns without touching any local
state or issuing any follow-up loadAllData. -/
structure AdminMutationOutcome where
  confirmationRequested : Bool
  requestSent : Bool
  requestMethod : String
  requestUrl : String
deriving DecidableEq, Repr

/-- Embedding of the admin deleteUser(userId): a confirm dialog first
(returning immediately when refused), then a token guard, then the
DELETE mutation request. -/
def deleteUser (userId : Nat) (confirmResult : Bool) (adminTokenPresent : Bool) :
    AdminMutationOutcome :=
  if !confirmResult then
    { confirmationRequested := true, requestSent := false, requestMethod := "", requestUrl := "" }
  else if !adminTokenPresent then
    { confirmationRequested := true, requestSent := false, requestMethod := "", requestUrl := "" }
  else
    { confirmationRequested := true, requestSent := true, requestMethod := "DELETE"
      requestUrl := "/api/admin/users/" ++ toString userId }

/-- Embedding of the admin toggleSuspend(userId, suspend): a token guard
and then the POST mutation request. The source contains no confirm call
on this path. -/
def toggleSuspend (userId : Nat) (suspend : Bool) (adminTokenPresent : Bool) :
    AdminMutationOutcome :=
  if !adminTokenPresent then
    { confirmationRequested := false, requestSent := false, requestMethod := "", requestUrl := "" }
  else
    { confirmationRequested := false, requestSent := true, requestMethod := "POST"
      requestUrl := "/api/admin/users/" ++ toString userId ++ "/" ++
        (if suspend then "suspend" else "unsuspend") }

/-- Per-user profile panel data computed by the admin showUserProfile:
the files and chats joined by string equality on email, and the summed
storage bytes of the joined files. -/
structure UserProfile where
  email : String
  userFiles : List AdminFile
  userChats : List AdminChat
  totalStorage : Nat
deriving DecidableEq, Repr

/-- Embedding of the admin showUserProfile(userId): looks the user up by
id in usersData (returning silently when absent), then filters filesData
by owner_email and chatsData by user_email against the user email and
sums the joined file sizes. -/
def showUserProfile (userId : Nat) (usersData : List AdminUser) (filesData : List AdminFile)
    (chatsData : List AdminChat) : Option UserProfile :=
  (usersData.find? (fun u => u.id == userId)).map (fun user =>
    let userFiles := filesData.filter (fun f => f.owner_email == user.email)
    let userChats := chatsData.filter (fun c => c.user_email == user.email)
    { email := user.email
      userFiles := userFiles
      userChats := userChats
      totalStorage := userFiles.foldl (fun sum f => sum + f.size) 0 })

/-- Concrete admin user used to evaluate the join at explicit inputs. -/
def exUserA : AdminUser := { id := 1, email := "a@x.com" }

/-- Concrete admin file owned by the example user. -/
def exFileA : AdminFile := { filename := "f1.pdf", owner_email := "a@x.com", size := 10 }

/-- Concrete admin file owned by a different user. -/
def exFileB : AdminFile := { filename := "f2.pdf", owner_email := "b@x.com", size := 20 }

/-- Profile computed for the example user over the two example files. -/
def exProfileA : UserProfile :=
  { email := "a@x.com", userFiles := [exFileA], userChats := [], totalStorage := 10 }

/-- Under the single-flight invariant, the entry cancellation of
fetchFiles empties the outstanding timer set and changes nothing else. -/
theorem fetchFilesEnter_eq (s : PollState) (h : PollInv s) :
    fetchFilesEnter s = { outstanding := [], pollingTimer := s.pollingTimer, nextId := s.nextId } := by
  rcases h with h0 | ⟨t, ht, hp⟩
  · unfold fetchFilesEnter clearPollingTimer
    cases hpt : s.pollingTimer with
    | none => cases s; simp_all
    | some t => cases s; simp_all
  · unfold fetchFilesEnter clearPollingTimer
    rw [hp]
    cases s
    simp_all

/-- A non-overlapping fetchFiles execution preserves the single-flight
invariant. -/
theorem pollInv_call (h : Bool) (s : PollState) (hs : PollInv s) :
    PollInv (fetchFilesCall h s) := by
  unfold fetchFilesCall
  rw [fetchFilesEnter_eq s hs]
  unfold fetchFilesComplete
  cases h with
  | true =>
      right
      exact ⟨s.nextId, by simp, by simp⟩
  | false =>
      left
      simp

/-- Every sequential event preserves the single-flight invariant. -/
theorem pollInv_step (e : PollEvent) (s : PollState) (hs : PollInv s) :
    PollInv (pollStep s e) := by
  cases e with
  | call h => exact pollInv_call h s hs
  | fire h =>
      unfold pollStep timerFire
      cases ho : s.outstanding with
      | nil => simpa [ho] using hs
      | cons t rest =>
          simp only
          apply pollInv_call
          rcases hs with h0 | ⟨u, hu, hp⟩
          · rw [h0] at ho; cases ho
          · rw [hu] at ho
            cases ho
            left
            simp [hu]

/-- The single-flight invariant is inductive along any sequential
history. -/
theorem runPoll_inv (events : List PollEvent) :
    ∀ s : PollState, PollInv s → PollInv (events.foldl pollStep s) := by
  induction events with
  | nil => intro s hs; exact hs
  | cons e es ih => intro s hs; exact ih _ (pollInv_step e s hs)

/-- Claim C1, counterexample: two fetchFiles() calls that overlap (both
run their entry cancellation while the fetch of the other is still in
flight, as when the refresh button is clicked twice or an upload
completes during a manual refresh) each schedule a timer on completion,
and the timer scheduled by the first completion is never cancelled: after
the second call completes, two polling timers are outstanding. -/
theorem claim_C1_counterexample :
    (fetchFilesComplete true (fetchFilesComplete true
      (fetchFilesEnter (fetchFilesEnter initialPollState)))).outstanding.length = 2 := by
  rfl

/-- Claim C1, amended: across any sequence of non-overlapping
fetchFiles() executions and timer firings (manual refresh, repeated
uploads, polling), at most one polling timer is outstanding after every
step — each call cancels the previously scheduled timer before deciding
whether to schedule a new one. The guarantee does not extend to calls
whose executions interleave. -/
theorem claim_C1 (events : List PollEvent) :
    (runPoll events).outstanding.length ≤ 1 := by
  have h := runPoll_inv events initialPollState (Or.inl rfl)
  unfold runPoll
  rcases h with h0 | ⟨t, ht, _⟩
  · rw [h0]; simp
  · rw [ht]; simp

/-- Claim C2: a completed fetchFiles() schedules exactly one follow-up
poll at the fixed 3000 ms delay if and only if the fetch succeeded and
some fetched record has is_indexed false; an all-indexed collection
schedules nothing, and a failed fetch surfaces a one-shot toast and
schedules nothing. -/
theorem claim_C2 (s : ClientState) (fs : List FileRecord) (st : Nat) (msg : String) :
    ((fetchFilesRun s (FetchResult.success fs)).scheduledPollDelay = some 3000 ↔
      ∃ f ∈ fs, f.is_indexed = false) ∧
    (fetchFilesRun s (FetchResult.success fs)).toast = none ∧
    (fetchFilesRun s (FetchResult.httpError st)).scheduledPollDelay = none ∧
    (fetchFilesRun s (FetchResult.httpError st)).toast.isSome = true ∧
    (fetchFilesRun s (FetchResult.networkError msg)).scheduledPollDelay = none ∧
    (fetchFilesRun s (FetchResult.networkError msg)).toast.isSome = true := by
  refine ⟨?_, rfl, rfl, rfl, rfl, rfl⟩
  have hd : (fetchFilesRun s (FetchResult.success fs)).scheduledPollDelay =
      if fs.any (fun f => !f.is_indexed) then some 3000 else none := rfl
  rw [hd]
  cases hp : fs.any (fun f => !f.is_indexed) with
  | false =>
      simp only [if_neg Bool.false_ne_true]
      simp only [List.any_eq_false] at hp
      constructor
      · intro hc; exact absurd hc (by simp)
      · rintro ⟨f, hf, hfi⟩
        have h2 := hp f hf
        simp [hfi] at h2
  | true =>
      simp only [if_pos rfl]
      simp only [List.any_eq_true] at hp
      constructor
      · intro _
        obtain ⟨f, hf, hfi⟩ := hp
        exact ⟨f, hf, by simpa using hfi⟩
      · intro _; rfl

/-- Claim C3, counterexample: a 401 response to the authorized
end-user fetchFiles call leaves the stored credential in place and the
client on the dashboard — the component does not clear the credential
and does not force re-authentication. -/
theorem claim_C3_counterexample :
    (fetchFilesRun exClientState (FetchResult.httpError 401)).state.token = some "tok" ∧
    (fetchFilesRun exClientState (FetchResult.httpError 401)).state.storedToken = some "tok" ∧
    (fetchFilesRun exClientState (FetchResult.httpError 401)).state.view = View.dashboard := by
  exact ⟨rfl, rfl, rfl⟩

/-- Claim C3, amended: on a 401 or 403 response the end-user component
does not clear the stored credential and does not force
re-authentication — it surfaces a generic failure toast and the client
stays in its current view with both credential copies unchanged (only
the admin console enforces the 401/403 teardown policy). -/
theorem claim_C3 (s : ClientState) (st : Nat) (h : st = 401 ∨ st = 403) :
    (fetchFilesRun s (FetchResult.httpError st)).state.token = s.token ∧
    (fetchFilesRun s (FetchResult.httpError st)).state.storedToken = s.storedToken ∧
    (fetchFilesRun s (FetchResult.httpError st)).state.view = s.view ∧
    (fetchFilesRun s (FetchResult.httpError st)).toast =
      some "Failed to load files: Failed to fetch files" := by
  exact ⟨rfl, rfl, rfl, rfl⟩

/-- Claim C3, witness for the amended theorem at status 401 on a
concrete logged-in state. -/
theorem claim_C3_witness :
    ((401 : Nat) = 401 ∨ (401 : Nat) = 403) ∧
    (fetchFilesRun exClientState (FetchResult.httpError 401)).state.token =
      exClientState.token :=
  ⟨Or.inl rfl, (claim_C3 exClientState 401 (Or.inl rfl)).1⟩

/-- Claim C4, counterexample: toggleSuspend issues its authorized
suspend mutation without requesting any interactive confirmation. -/
theorem claim_C4_counterexample :
    (toggleSuspend 7 true true).requestSent = true ∧
    (toggleSuspend 7 true true).confirmationRequested = false := by
  exact ⟨rfl, rfl⟩

/-- Claim C4, amended: deleteUser requests interactive confirmation and
issues its DELETE mutation only when confirmation is granted (and a
credential is present); a refused confirmation sends no request and
changes nothing. toggleSuspend, by contrast, never requests
confirmation and issues its mutation whenever a credential is present. -/
theorem claim_C4 (userId : Nat) (confirmResult suspend tokenPresent : Bool) :
    (deleteUser userId confirmResult tokenPresent).confirmationRequested = true ∧
    (deleteUser userId confirmResult tokenPresent).requestSent = (confirmResult && tokenPresent) ∧
    (deleteUser userId false tokenPresent).requestSent = false ∧
    (toggleSuspend userId suspend tokenPresent).confirmationRequested = false ∧
    (toggleSuspend userId suspend tokenPresent).requestSent = tokenPresent := by
  cases confirmResult <;> cases tokenPresent <;> cases suspend <;>
    simp [deleteUser, toggleSuspend]

/-- Claim C5, counterexample: the users fetch fails with HTTP 500 and
settles first while the files fetch fails with 401; Promise.all delivers
the 500 rejection, so the aggregate-error branch runs and the credential
is not cleared and the admin is not returned to the login state, even
though a fetch failed with 401. -/
theorem claim_C5_counterexample :
    exStatuses 1 = 401 ∧
    (loadAllData exStatuses exSettleOrder [] [] [] []).tokenCleared = false ∧
    (loadAllData exStatuses exSettleOrder [] [] [] []).returnedToLogin = false := by
  exact ⟨rfl, by decide, by decide⟩

/-- Claim C5, amended: the refresh is all-or-nothing — whenever any of
the four fetches fails, no collection is assigned and no KPI or table is
rendered. The session-expiry branch follows the first rejection to
settle: when every failing fetch failed with 401/403 (in particular a
single auth failure), the credential is cleared and the admin returns to
login after 1500 ms; when no failing fetch is an auth failure, a single
aggregate error toast is surfaced and the credential is kept; when auth
and non-auth failures coincide, the outcome follows whichever rejection
settled first. -/
theorem claim_C5 (statuses : Fin 4 → Nat) (settleOrder : List (Fin 4))
    (users : List AdminUser) (files : List AdminFile) (chats : List AdminChat)
    (logs : List String) (horder : ∀ i, i ∈ settleOrder) :
    ((∃ i, fetchWithAuthError (statuses i) ≠ none) →
      (loadAllData statuses settleOrder users files chats logs).rendered = false ∧
      (loadAllData statuses settleOrder users files chats logs).usersShown = none ∧
      (loadAllData statuses settleOrder users files chats logs).filesShown = none ∧
      (loadAllData statuses settleOrder users files chats logs).chatsShown = none ∧
      (loadAllData statuses settleOrder users files chats logs).logsShown = none) ∧
    ((∀ i, fetchWithAuthError (statuses i) = none) →
      (loadAllData statuses settleOrder users files chats logs).rendered = true ∧
      (loadAllData statuses settleOrder users files chats logs).tokenCleared = false) ∧
    ((∃ i, fetchWithAuthError (statuses i) = some LoadError.unauthorized) →
      (∀ i, fetchWithAuthError (statuses i) = none ∨
        fetchWithAuthError (statuses i) = some LoadError.unauthorized) →
      (loadAllData statuses settleOrder users files chats logs).tokenCleared = true ∧
      (loadAllData statuses settleOrder users files chats logs).returnedToLogin = true ∧
      (loadAllData statuses settleOrder users files chats logs).loginDelayMs = 1500) ∧
    ((∃ i, fetchWithAuthError (statuses i) ≠ none) →
      (∀ i, fetchWithAuthError (statuses i) ≠ some LoadError.unauthorized) →
      (loadAllData statuses settleOrder users files chats logs).tokenCleared = false ∧
      (loadAllData statuses settleOrder users files chats logs).toast.isSome = true ∧
      (loadAllData statuses settleOrder users files chats logs).rendered = false) := by
  have hLrfl : promiseAllError statuses settleOrder =
      (settleOrder.filterMap (fun i => fetchWithAuthError (statuses i))).head? := rfl
  have hmemOf : ∀ e, promiseAllError statuses settleOrder = some e →
      ∃ j, fetchWithAuthError (statuses j) = some e := by
    intro e he
    rw [hLrfl] at he
    have hmem : e ∈ settleOrder.filterMap (fun i => fetchWithAuthError (statuses i)) :=
      List.mem_of_mem_head? (by simp [he])
    obtain ⟨j, _, hj⟩ := List.mem_filterMap.mp hmem
    exact ⟨j, hj⟩
  have hsomeOf : (∃ i, fetchWithAuthError (statuses i) ≠ none) →
      ∃ e, promiseAllError statuses settleOrder = some e := by
    rintro ⟨i, hi⟩
    obtain ⟨e, he⟩ := Option.ne_none_iff_exists.mp hi
    have hmem : e ∈ settleOrder.filterMap (fun i => fetchWithAuthError (statuses i)) :=
      List.mem_filterMap.mpr ⟨i, horder i, he.symm⟩
    rw [hLrfl]
    cases hL : settleOrder.filterMap (fun i => fetchWithAuthError (statuses i)) with
    | nil => rw [hL] at hmem; cases hmem
    | cons a t => exact ⟨a, rfl⟩
  refine ⟨?_, ?_, ?_, ?_⟩
  · intro hex
    obtain ⟨e, he⟩ := hsomeOf hex
    cases e <;> simp [loadAllData, he]
  · intro hall
    have hnil : settleOrder.filterMap (fun i => fetchWithAuthError (statuses i)) = [] := by
      rw [List.filterMap_eq_nil_iff]
      intro i _
      exact hall i
    have hnone : promiseAllError statuses settleOrder = none := by
      rw [hLrfl, hnil]; rfl
    simp [loadAllData, hnone]
  · intro hex hall
    obtain ⟨e, he⟩ := hsomeOf ⟨hex.choose, by rw [hex.choose_spec]; simp⟩
    obtain ⟨j, hj⟩ := hmemOf e he
    have : e = LoadError.unauthorized := by
      rcases hall j with hn | hu
      · rw [hn] at hj; cases hj
      · rw [hu] at hj; exact (Option.some.injEq _ _ ▸ hj).symm
    subst this
    simp [loadAllData, he]
  · intro hex hno
    obtain ⟨e, he⟩ := hsomeOf hex
    obtain ⟨j, hj⟩ := hmemOf e he
    cases e with
    | unauthorized => exact absurd hj (hno j)
    | http st => simp [loadAllData, he]

/-- Claim C5, witness for the amended theorem: all four fetches succeed
with status 200 in positional settlement order, and the refresh renders
without clearing the credential. -/
theorem claim_C5_witness :
    (loadAllData (fun _ => 200) [0, 1, 2, 3] [] [] [] []).rendered = true ∧
    (loadAllData (fun _ => 200) [0, 1, 2, 3] [] [] [] []).tokenCleared = false :=
  (claim_C5 (fun _ => 200) [0, 1, 2, 3] [] [] [] [] (by decide)).2.1 (fun i => by
    simp [fetchWithAuthError])

/-- Claim C6: the outgoing query request omits file_ids exactly when the
selection is empty, and otherwise carries exactly the members of the
selection. -/
theorem claim_C6 (query : String) (sel : List Nat) :
    (sel = [] → (buildQueryRequest query sel).file_ids = none) ∧
    (sel ≠ [] → (buildQueryRequest query sel).file_ids = some sel) ∧
    (∀ ids, (buildQueryRequest query sel).file_ids = some ids →
      ∀ x, (x ∈ ids ↔ x ∈ sel)) := by
  refine ⟨?_, ?_, ?_⟩
  · intro h
    subst h
    simp [buildQueryRequest]
  · intro h
    cases sel with
    | nil => exact absurd rfl h
    | cons a t => simp [buildQueryRequest]
  · intro ids hids x
    cases sel with
    | nil => simp [buildQueryRequest] at hids
    | cons a t =>
        simp [buildQueryRequest] at hids
        rw [← hids]

/-- Claim C6, witness: empty selection omits file_ids; the selection
with members 3 and 7 is carried verbatim. -/
theorem claim_C6_witness :
    (buildQueryRequest "q1" []).file_ids = none ∧
    (buildQueryRequest "q2" [3, 7]).file_ids = some [3, 7] :=
  ⟨(claim_C6 "q1" []).1 rfl, (claim_C6 "q2" [3, 7]).2.1 (by decide)⟩

/-- Removing the typing indicator from a transcript that holds none is a
no-op. -/
theorem removeTyping_of_no_typing (l : List ChatMessage) :
    (∀ m ∈ l, m.isTyping = false) → removeTypingIndicator l = l := by
  induction l with
  | nil => intro _; rfl
  | cons a t ih =>
      intro h
      have ha : a.isTyping = false := h a (by simp)
      show List.eraseP (fun m => m.isTyping) (a :: t) = a :: t
      rw [List.eraseP_cons, ha, cond_false]
      exact congrArg (List.cons a) (ih fun m hm => h m (by simp [hm]))

/-- Removing the typing indicator from a typing-free transcript with the
placeholder appended removes exactly the placeholder. -/
theorem removeTyping_append_placeholder (l : List ChatMessage) :
    (∀ m ∈ l, m.isTyping = false) →
    removeTypingIndicator (l ++ [typingPlaceholder]) = l := by
  induction l with
  | nil =>
      intro _
      show List.eraseP (fun m => m.isTyping) (typingPlaceholder :: []) = []
      rw [List.eraseP_cons]
      rfl
  | cons a t ih =>
      intro h
      have ha : a.isTyping = false := h a (by simp)
      show List.eraseP (fun m => m.isTyping) (a :: (t ++ [typingPlaceholder])) = a :: t
      rw [List.eraseP_cons, ha, cond_false]
      exact congrArg (List.cons a) (ih fun m hm => h m (by simp [hm]))

/-- Claim C7: for every non-empty submitted query, the final transcript
is the old transcript extended by exactly the user message followed by
one assistant message, with the typing placeholder absent; on failure
(non-2xx or transport error) the appended assistant message is the fixed
generic error entry, whose text does not depend on the backend error
detail. -/
theorem claim_C7 (input : String) (outcome : QueryOutcome) (transcript : List ChatMessage)
    (hq : jsTrim input ≠ "") (ht : ∀ m ∈ transcript, m.isTyping = false) :
    ∃ a : ChatMessage,
      handleChat input outcome transcript =
        transcript ++ [mkUserMessage (jsTrim input), a] ∧
      a.role = Role.assistant ∧
      a.isTyping = false ∧
      (∀ m ∈ handleChat input outcome transcript, m.isTyping = false) ∧
      (∀ answer, outcome = QueryOutcome.success answer → a = mkAssistantMessage answer) ∧
      (∀ detail, outcome = QueryOutcome.httpError detail → a = chatErrorMessage) ∧
      (∀ message, outcome = QueryOutcome.networkError message → a = chatErrorMessage) := by
  have hlist : ∀ m ∈ transcript ++ [mkUserMessage (jsTrim input)], m.isTyping = false := by
    intro m hm
    rcases List.mem_append.mp hm with h | h
    · exact ht m h
    · rw [List.mem_singleton.mp h]; rfl
  have hassoc : transcript ++ [mkUserMessage (jsTrim input), typingPlaceholder] =
      (transcript ++ [mkUserMessage (jsTrim input)]) ++ [typingPlaceholder] := by
    simp
  have hkey : removeTypingIndicator
      (transcript ++ [mkUserMessage (jsTrim input), typingPlaceholder]) =
      transcript ++ [mkUserMessage (jsTrim input)] := by
    rw [hassoc]
    exact removeTyping_append_placeholder _ hlist
  have hmems : ∀ (a : ChatMessage), a.isTyping = false →
      ∀ m ∈ transcript ++ [mkUserMessage (jsTrim input), a], m.isTyping = false := by
    intro a hA m hm
    rcases List.mem_append.mp hm with h | h
    · exact ht m h
    · rcases List.mem_cons.mp h with h | h
      · rw [h]; rfl
      · rw [List.mem_singleton.mp h]; exact hA
  cases outcome with
  | success answer =>
      have heq : handleChat input (QueryOutcome.success answer) transcript =
          transcript ++ [mkUserMessage (jsTrim input), mkAssistantMessage answer] := by
        unfold handleChat
        rw [if_neg hq]
        simp only [hkey]
        simp
      refine ⟨mkAssistantMessage answer, heq, rfl, rfl, ?_, ?_, ?_, ?_⟩
      · rw [heq]; exact hmems _ rfl
      · intro ans h; cases h; rfl
      · intro d h; cases h
      · intro m h; cases h
  | httpError detail =>
      have heq : handleChat input (QueryOutcome.httpError detail) transcript =
          transcript ++ [mkUserMessage (jsTrim input), chatErrorMessage] := by
        unfold handleChat
        rw [if_neg hq]
        simp only [hkey, removeTyping_of_no_typing _ hlist]
        simp
      refine ⟨chatErrorMessage, heq, rfl, rfl, ?_, ?_, ?_, ?_⟩
      · rw [heq]; exact hmems _ rfl
      · intro ans h; cases h
      · intro d h; rfl
      · intro m h; cases h
  | networkError message =>
      have heq : handleChat input (QueryOutcome.networkError message) transcript =
          transcript ++ [mkUserMessage (jsTrim input), chatErrorMessage] := by
        unfold handleChat
        rw [if_neg hq]
        simp only [hkey]
        simp
      refine ⟨chatErrorMessage, heq, rfl, rfl, ?_, ?_, ?_, ?_⟩
      · rw [heq]; exact hmems _ rfl
      · intro ans h; cases h
      · intro d h; cases h
      · intro m h; rfl

/-- Claim C7, witness: the query hi against an empty transcript with a
non-2xx response carrying a backend detail yields exactly the user
message followed by the fixed generic error entry. -/
theorem claim_C7_witness :
    handleChat "hi" (QueryOutcome.httpError "database timeout") [] =
      [mkUserMessage "hi", chatErrorMessage] := by
  obtain ⟨a, h1, _, _, _, _, h6, _⟩ :=
    claim_C7 "hi" (QueryOutcome.httpError "database timeout") []
      (by decide) (by intro m hm; simp at hm)
  have ha : a = chatErrorMessage := h6 "database timeout" rfl
  have hj : jsTrim "hi" = "hi" := by decide
  rw [ha, hj] at h1
  simpa using h1

/-- Toggling preserves the no-duplicates invariant of the selection, so
the hypothesis of the idempotence claim holds in every reachable
selection state (ids enter only through the absent-guarded push, through
selectAllDocs over distinct record ids, or through clearAllDocs). -/
theorem toggleFileSelection_nodup (fileId : Nat) (sel : List Nat) (h : sel.Nodup) :
    (toggleFileSelection fileId sel).Nodup := by
  unfold toggleFileSelection
  by_cases hmem : fileId ∈ sel
  · rw [if_pos hmem]
    exact h.erase fileId
  · rw [if_neg hmem]
    simp [List.nodup_append, h, hmem]

/-- Claim C8: on a duplicate-free selection, toggling the same file id
twice leaves the selection unchanged as a set of ids — one toggle adds
the id when absent and removes it when present. -/
theorem claim_C8 (fileId : Nat) (sel : List Nat) (hnd : sel.Nodup) (x : Nat) :
    x ∈ toggleFileSelection fileId (toggleFileSelection fileId sel) ↔ x ∈ sel := by
  by_cases hmem : fileId ∈ sel
  · have h1 : toggleFileSelection fileId sel = sel.erase fileId := by
      simp [toggleFileSelection, hmem]
    have h2 : fileId ∉ sel.erase fileId := by
      intro hc
      exact ((hnd.mem_erase_iff).mp hc).1 rfl
    have h3 : toggleFileSelection fileId (sel.erase fileId) = sel.erase fileId ++ [fileId] := by
      simp [toggleFileSelection, h2]
    rw [h1, h3, List.mem_append, hnd.mem_erase_iff, List.mem_singleton]
    constructor
    · rintro (⟨_, hx⟩ | rfl)
      · exact hx
      · exact hmem
    · intro hx
      by_cases hxf : x = fileId
      · exact Or.inr hxf
      · exact Or.inl ⟨hxf, hx⟩
  · have h1 : toggleFileSelection fileId sel = sel ++ [fileId] := by
      simp [toggleFileSelection, hmem]
    have h2 : fileId ∈ sel ++ [fileId] := by simp
    have h3 : toggleFileSelection fileId (sel ++ [fileId]) = sel := by
      simp only [toggleFileSelection, if_pos h2]
      rw [List.erase_append_right _ hmem]
      simp
    rw [h1, h3]

/-- Claim C8, witness: double toggle of id 2 on the duplicate-free
selection one-two-three leaves membership of 2 unchanged. -/
theorem claim_C8_witness :
    List.Nodup [1, 2, 3] ∧
    (2 ∈ toggleFileSelection 2 (toggleFileSelection 2 [1, 2, 3]) ↔ 2 ∈ [1, 2, 3]) :=
  ⟨by decide, claim_C8 2 [1, 2, 3] (by decide) 2⟩

/-- Claim C9: when the profile of a user found in the fetched users
collection is shown, the reported files are exactly those whose
owner_email string-equals the user email and the reported chats are
exactly those whose user_email string-equals it (zero matches included:
the filters simply yield empty lists). -/
theorem claim_C9 (userId : Nat) (usersData : List AdminUser) (filesData : List AdminFile)
    (chatsData : List AdminChat) (u : AdminUser) (p : UserProfile)
    (hfind : usersData.find? (fun v => v.id == userId) = some u)
    (hp : showUserProfile userId usersData filesData chatsData = some p) :
    (∀ f, f ∈ p.userFiles ↔ (f ∈ filesData ∧ f.owner_email = u.email)) ∧
    (∀ c, c ∈ p.userChats ↔ (c ∈ chatsData ∧ c.user_email = u.email)) := by
  unfold showUserProfile at hp
  rw [hfind, Option.map_some'] at hp
  have hp2 := Option.some.inj hp
  subst hp2
  constructor
  · intro f
    simp [List.mem_filter]
  · intro c
    simp [List.mem_filter]

/-- Claim C9, witness: the profile of the user with email a at x dot com
over one file owned by that email and one file owned by another reports
exactly one file. -/
theorem claim_C9_witness :
    showUserProfile 1 [exUserA] [exFileA, exFileB] [] = some exProfileA ∧
    exProfileA.userFiles.length = 1 ∧
    (exFileA ∈ exProfileA.userFiles ↔
      (exFileA ∈ [exFileA, exFileB] ∧ exFileA.owner_email = exUserA.email)) :=
  ⟨by decide, rfl,
    (claim_C9 1 [exUserA] [exFileA, exFileB] [] exUserA exProfileA (by decide) (by decide)).1
      exFileA⟩

/-- Claim C10: logout sets the credential to none, removes its durable
copy, and empties the files collection; it leaves the selection set
untouched and does not cancel a pending polling timer, and a poll that
fires after logout builds its authorization header from the cleared
null credential. -/
theorem claim_C10 (s : ClientState) :
    (logout s).token = none ∧
    (logout s).storedToken = none ∧
    (logout s).files = [] ∧
    (logout s).selectedFileIds = s.selectedFileIds ∧
    (logout s).pollingPending = s.pollingPending ∧
    authHeader (logout s) = "Bearer null" := by
  exact ⟨rfl, rfl, rfl, rfl, rfl, rfl⟩

end CloudDrive
